import Mathlib

/-!
Verification of `igzValidatingInputField`
(src/igz_controls/components/validating-input-field/validating-input-field.component.js).

The component is an AngularJS validating input field.  We give a shallow
embedding of its controller: the mutable controller/ngModel fields become a
`State` record, each event handler becomes a `State → State` function, and
outbound callbacks (`updateDataCallback`, `itemBlurCallback`,
`itemFocusCallback`) are recorded in an append-only event log.

Modelling notes:
* A validation rule's `pattern` is either a predicate function (called with
  `(value, inputName, formObject)`) or a RegExp; a RegExp's only use in the
  component is `pattern.test(value)`, so we embed it as its induced test
  `String → Bool`.
* `angular.copy` on strings and on plain data is the identity on values in the
  pure model; the aliasing content of the deep copy of the rule list is
  verified separately against a small heap model at the end of this file.
* `ngModel` is reduced to the fields the controller reads and writes:
  `$modelValue`, `$valid`/`$invalid`, `$dirty`.  `$validate` reruns the single
  registered validator (`$validators.validationRules`); `$commitViewValue`
  commits the view value (`ctrl.data`, since the template binds
  `ng-model="$ctrl.data"`) to the model value, re-validates and — when the
  model value actually changed — fires `ng-change`, i.e. `ctrl.onChange`.
-/

namespace ValidatingInputField

/-- The `<form>`/`<ng-form>` object passed via the `formObject` binding.  The
controller only reads its `$submitted` flag and forwards the object to rule
predicate functions. -/
structure FormObject where
  submitted : Bool

/-- `validationRules[].pattern`: either a predicate function or a RegExp
(embedded as its match test). -/
inductive RulePattern where
  | func (f : String → String → Option FormObject → Bool)
  | regex (test : String → Bool)

instance : Inhabited RulePattern := ⟨.regex fun _ => false⟩

/-- A validation rule as bound through `validationRules`. -/
structure Rule where
  name : Option String := none
  label : String := ""
  pattern : RulePattern
  isValid : Option Bool := none

/-- The rule evaluation performed inside `checkPatternsValidity`:
`lodash.isFunction(rule.pattern) ? rule.pattern(value, ctrl.inputName,
ctrl.formObject) : rule.pattern.test(value)`. -/
def evalRule (value inputName : String) (formObject : Option FormObject)
    (r : Rule) : Bool :=
  match r.pattern with
  | .func f => f value inputName formObject
  | .regex test => test value

/-- Whether `lodash.some(ctrl.validationRules, ['isValid', false])` matches a
given rule: its `isValid` property equals `false`. -/
def ruleIsInvalid (r : Rule) : Bool :=
  match r.isValid with
  | some false => true
  | _ => false

/-- `hasInvalidRule`: `lodash.some(ctrl.validationRules, ['isValid', false])`. -/
def hasInvalidRule (rules : List Rule) : Bool :=
  rules.any ruleIsInvalid

/-- The `lodash.forEach` body of `checkPatternsValidity`: store the rule's
evaluation result in its `isValid` property. -/
def applyRule (value inputName : String) (formObject : Option FormObject)
    (r : Rule) : Rule :=
  { r with isValid := some (evalRule value inputName formObject r) }

/-- `checkPatternsValidity(value)`: write each rule's evaluation into its
`isValid` flag and return `!hasInvalidRule()`.  The updated rule list is
returned alongside the boolean since the JS function mutates
`ctrl.validationRules` in place. -/
def checkPatternsValidity (rules : List Rule) (value inputName : String)
    (formObject : Option FormObject) : List Rule × Bool :=
  let updated := rules.map (applyRule value inputName formObject)
  (updated, !hasInvalidRule updated)

/-- `resetPatternsValidity()`: set every rule's `isValid` to `true`. -/
def resetPatternsValidity (rules : List Rule) : List Rule :=
  rules.map fun r => { r with isValid := some true }

/-- Outbound callback invocations, in invocation order.  `updateData` is
`updateDataCallback({newData, field})`; `blur` is `itemBlurCallback({event,
inputValue, inputName})`; `focus` is `itemFocusCallback({event, inputValue,
inputName})`.  The DOM event object is identified by an opaque id. -/
inductive Event where
  | updateData (newData : String) (field : String)
  | blur (evId : Nat) (inputValue : String) (inputName : String)
  | focus (evId : Nat) (inputValue : String) (inputName : String)
  deriving DecidableEq

/-- The component attributes the verified handlers read (after `$onInit` has
filled in defaults; `fieldType`/`bordersMode` default handling is modelled
separately by `onInit` below). -/
structure Config where
  validationIsRequired : Bool := false
  isDataRevert : Bool := false
  onlyValidCharacters : Bool := false
  inputName : String := ""
  updateDataField : String := ""
  formObject : Option FormObject := none
  validationMaxLength : Option String := none

/-- The controller's mutable state together with the reduced `ngModel` state
and the outbound-callback log. -/
structure State where
  cfg : Config
  /-- `ctrl.data` — also the ngModel view value (`ng-model="$ctrl.data"`). -/
  data : String
  /-- `ctrl.validationRules` (the component's own copy). -/
  validationRules : List Rule
  /-- closure variable `lastValidValue`. -/
  lastValidValue : String
  /-- `ngModel.$modelValue`. -/
  modelValue : String
  /-- `ngModel.$valid` (`$invalid` is its negation). -/
  ngValid : Bool
  /-- `ngModel.$dirty`. -/
  ngDirty : Bool
  inputFocused : Bool
  inputIsTouched : Bool
  isValidationPopUpShown : Bool
  showPopUpOnTop : Bool
  preventInputBlur : Bool
  /-- whether `handleDocumentClick` is currently attached via
  `$document.on('click', ...)`. -/
  docClickAttached : Bool
  events : List Event

/-- `ngModel.$validators.validationRules`, registered in `postLink`:
if the field is not required and `ctrl.data` is the empty string, mark all
rules valid and accept; otherwise run `checkPatternsValidity(modelValue)`. -/
def validationRulesValidator (st : State) (modelValue : String) :
    List Rule × Bool :=
  if !st.cfg.validationIsRequired && st.data == "" then
    (resetPatternsValidity st.validationRules, true)
  else
    checkPatternsValidity st.validationRules modelValue st.cfg.inputName
      st.cfg.formObject

/-- `ngModel.$validate()`: rerun the registered validator on the current model
value, updating the rules' `isValid` flags and `$valid`. -/
def ngValidate (st : State) : State :=
  let r := validationRulesValidator st st.modelValue
  { st with validationRules := r.1, ngValid := r.2 }

/-- `isFieldInvalid()`: suppressed under `onlyValidCharacters`; otherwise the
field shows as invalid only when (`formObject.$submitted` or `ngModel.$dirty`)
and `ngModel.$invalid`. -/
def isFieldInvalid (st : State) : Bool :=
  if st.cfg.onlyValidCharacters then false
  else ((st.cfg.formObject.map FormObject.submitted).getD false || st.ngDirty)
    && !st.ngValid

/-- `onChange()`: `$validate`, then either snapshot `lastValidValue` (when
`isDataRevert` and valid) or invoke `updateDataCallback`. -/
def onChange (st : State) : State :=
  let st := ngValidate st
  if st.cfg.isDataRevert then
    if st.ngValid then { st with lastValidValue := st.data } else st
  else
    { st with
      events := st.events ++ [Event.updateData st.data st.cfg.updateDataField] }

/-- `ngModel.$commitViewValue()`: a no-op when the pending view value already
equals the model value; otherwise commit it, re-validate, and fire `ng-change`
(which is bound to `ctrl.onChange`). -/
def commitViewValue (st : State) : State :=
  if st.modelValue == st.data then st
  else onChange (ngValidate { st with modelValue := st.data })

/-- `setOrRevertInputValue()`: revert `ctrl.data` to `lastValidValue` when
`ngModel.$invalid`, otherwise invoke `updateDataCallback`. -/
def setOrRevertInputValue (st : State) : State :=
  if !st.ngValid then { st with data := st.lastValidValue }
  else
    { st with
      events := st.events ++ [Event.updateData st.data st.cfg.updateDataField] }

/-- `onBlur(event)`: if `preventInputBlur` is set, clear it and keep focus
(aborting the blur).  Otherwise clear the focus flag, commit the pending view
value, run `setOrRevertInputValue` when `isDataRevert`, and always invoke
`itemBlurCallback({event, inputValue: ctrl.data, inputName})`. -/
def onBlur (st : State) (evId : Nat) : State :=
  if st.preventInputBlur then
    { st with preventInputBlur := false, inputFocused := true }
  else
    let st1 := commitViewValue { st with inputFocused := false }
    let st2 := if st1.cfg.isDataRevert then setOrRevertInputValue st1 else st1
    { st2 with
      events := st2.events ++ [Event.blur evId st2.data st2.cfg.inputName] }

/-- `onFocus(event)`: set the focused flag, mark the field touched when any
rules are configured, invoke `itemFocusCallback`. -/
def onFocus (st : State) (evId : Nat) : State :=
  let st1 := { st with inputFocused := true }
  let st2 :=
    if st1.validationRules.isEmpty then st1
    else { st1 with inputIsTouched := true }
  { st2 with
    events := st2.events ++ [Event.focus evId st2.data st2.cfg.inputName] }

/-- `toggleValidationPopUp()`: a no-op when no rules are configured.  On open,
attach the document click listener and reset `showPopUpOnTop`; the deferred
`$timeout` body (re-focus and layout measurement of the pop-up) is collapsed
into the handler, except the DOM-layout-dependent final value of
`showPopUpOnTop`, which no claim concerns.  On close, detach the listener. -/
def toggleValidationPopUp (st : State) : State :=
  if st.validationRules.isEmpty then st
  else
    let st1 :=
      { st with isValidationPopUpShown := !st.isValidationPopUpShown }
    if st1.isValidationPopUpShown then
      { st1 with docClickAttached := true, showPopUpOnTop := false,
                 inputFocused := true }
    else
      { st1 with docClickAttached := false }

/-- `handleDocumentClick(event)`: close the pop-up when the click target is
outside the component's element, and detach itself whenever the pop-up is not
shown afterwards. -/
def handleDocumentClick (st : State) (targetInsideElement : Bool) : State :=
  let st1 :=
    if !targetInsideElement then { st with isValidationPopUpShown := false }
    else st
  if !st1.isValidationPopUpShown then { st1 with docClickAttached := false }
  else st1

/-- `$onDestroy()`: detach the document click listener (the `animationend`
window listener is outside the model). -/
def onDestroy (st : State) : State :=
  { st with docClickAttached := false }

/-- The `changes.inputValue` branch of `$onChanges`: overwrite `ctrl.data`
with the new bound value (defaulting `null`/`undefined` to `''`) and reset
`lastValidValue` to a copy of it. -/
def onChangesInputValue (st : State) (currentValue : Option String) : State :=
  { st with data := currentValue.getD "",
            lastValidValue := currentValue.getD "" }

/-- Component creation: the initial controller fields, the first
`$onChanges` call (which sees `inputValue` and `validationRules` as first
changes, so does not re-validate), and `postLink`'s initial
`ngModel.$validate()`.  The initial model value is the bound value. -/
def initComponent (cfg : Config) (inputValue : Option String)
    (incomingRules : Option (List Rule)) : State :=
  ngValidate
    { cfg := cfg
      data := inputValue.getD ""
      validationRules := incomingRules.getD []
      lastValidValue := inputValue.getD ""
      modelValue := inputValue.getD ""
      ngValid := true
      ngDirty := false
      inputFocused := false
      inputIsTouched := false
      isValidationPopUpShown := false
      showPopUpOnTop := false
      preventInputBlur := false
      docClickAttached := false
      events := [] }

/-! ### Basic lemmas about the validator -/

theorem ruleIsInvalid_applyRule (value inputName : String)
    (formObject : Option FormObject) (r : Rule) :
    ruleIsInvalid (applyRule value inputName formObject r)
      = !evalRule value inputName formObject r := by
  cases h : evalRule value inputName formObject r <;>
    simp [ruleIsInvalid, applyRule, h]

theorem hasInvalidRule_map_applyRule (value inputName : String)
    (formObject : Option FormObject) (rules : List Rule) :
    hasInvalidRule (rules.map (applyRule value inputName formObject))
      = rules.any fun r => !evalRule value inputName formObject r := by
  induction rules with
  | nil => rfl
  | cons r rs ih =>
      simp only [List.map_cons, hasInvalidRule, List.any_cons,
        ruleIsInvalid_applyRule]
      exact congrArg (_ || ·) ih

theorem checkPatternsValidity_snd (rules : List Rule) (value inputName : String)
    (formObject : Option FormObject) :
    (checkPatternsValidity rules value inputName formObject).2
      = rules.all (evalRule value inputName formObject) := by
  simp only [checkPatternsValidity, hasInvalidRule_map_applyRule]
  induction rules with
  | nil => rfl
  | cons r rs ih =>
      simp only [List.any_cons, List.all_cons, Bool.not_or, Bool.not_not, ih]

/-! ### C1 — non-empty value: validator = AND of rule evaluations -/

/-- C1: for every non-empty current value, the validator's verdict equals the
conjunction of all configured rules' evaluations, where a function matcher is
called with `(value, inputName, formObject)` and a pattern matcher is tested
against the value (both captured by `evalRule`). -/
theorem validator_eq_all_rules (st : State) (v : String)
    (hd : st.data = v) (hne : v ≠ "") :
    (validationRulesValidator st v).2
      = st.validationRules.all
          (evalRule v st.cfg.inputName st.cfg.formObject) := by
  have hbeq : (st.data == "") = false := by
    subst hd; exact beq_false_of_ne hne
  simp only [validationRulesValidator, hbeq, Bool.and_false, Bool.false_eq_true,
    if_false]
  exact checkPatternsValidity_snd _ _ _ _

/-- Witness for C1 at a concrete state: a function rule and a pattern rule on
value `"ab"`. -/
def c1State : State :=
  initComponent { inputName := "f", formObject := some ⟨false⟩ }
    (some "ab")
    (some [ { label := "len", pattern := .func fun v _ _ => v.length == 2 },
            { label := "nonempty", pattern := .regex fun v => v != "" } ])

theorem validator_eq_all_rules_witness :
    c1State.data = "ab" ∧ "ab" ≠ "" ∧
      (validationRulesValidator c1State "ab").2
        = c1State.validationRules.all
            (evalRule "ab" c1State.cfg.inputName c1State.cfg.formObject) :=
  ⟨rfl, by decide, validator_eq_all_rules c1State "ab" rfl (by decide)⟩

/-! ### C2 — not-required and empty: accept and mark all rules valid -/

/-- C2: when `validationIsRequired` is `false` and the current value is empty,
the validator returns `true` and sets every rule's `isValid` to `true`,
for every rule set and every model value — in particular without evaluating
any rule's matcher. -/
theorem validator_empty_not_required (st : State) (modelValue : String)
    (hreq : st.cfg.validationIsRequired = false) (hd : st.data = "") :
    (validationRulesValidator st modelValue).2 = true ∧
      (validationRulesValidator st modelValue).1
        = st.validationRules.map fun r => { r with isValid := some true } := by
  simp only [validationRulesValidator, hreq, hd]
  exact ⟨rfl, rfl⟩

/-- Witness for C2: a rule whose matcher rejects everything (so it was surely
not evaluated) still ends up with `isValid = true` on the empty value. -/
def c2State : State :=
  initComponent { validationIsRequired := false } (some "")
    (some [ { label := "never", pattern := .regex fun _ => false } ])

theorem validator_empty_not_required_witness :
    c2State.cfg.validationIsRequired = false ∧ c2State.data = "" ∧
      ((validationRulesValidator c2State "x").2 = true ∧
        (validationRulesValidator c2State "x").1
          = c2State.validationRules.map
              fun r => { r with isValid := some true }) :=
  ⟨rfl, rfl, validator_empty_not_required c2State "x" rfl rfl⟩

/-! ### C3 — displayed validity vs. the validity formula

The invariant formula of the spec: `(not required AND value empty) OR all
rules evaluate true`. -/

/-- The spec's validity formula for a state. -/
def validityFormula (st : State) : Bool :=
  (!st.cfg.validationIsRequired && (st.data == "")) ||
    st.validationRules.all
      (evalRule st.data st.cfg.inputName st.cfg.formObject)

/-- A freshly initialized required field whose single rule rejects its
non-empty initial value: `ngModel` is pristine (`$dirty = false`) and the form
is not submitted, so `isFieldInvalid()` still reports `false`. -/
def c3State : State :=
  initComponent { validationIsRequired := true, inputName := "f" }
    (some "abc")
    (some [ { label := "never", pattern := .regex fun _ => false } ])

/-- Counterexample to C3 as stated: in the reachable state `c3State` the
displayed validity status is `true` (`isFieldInvalid` is `false`) although the
formula `(not required AND empty) OR all rules true` is `false` — display is
additionally gated on dirty/submitted. -/
theorem displayed_validity_counterexample :
    isFieldInvalid c3State = false ∧ validityFormula c3State = false :=
  ⟨rfl, rfl⟩

/-- C3 (amended): the validator's verdict on the current value is exactly the
formula `(not required AND value empty) OR all rules evaluate true`; the
*displayed* invalid status (`isFieldInvalid`) equals the formula's negation
only gated on (`onlyValidCharacters` unset) and (form submitted or field
dirty), whenever `ngModel.$valid` is in sync with the validator. -/
theorem validity_flag_characterization (st : State) :
    (validationRulesValidator st st.data).2 = validityFormula st ∧
      (st.ngValid = (validationRulesValidator st st.data).2 →
        isFieldInvalid st
          = (!st.cfg.onlyValidCharacters &&
              ((st.cfg.formObject.map FormObject.submitted).getD false
                || st.ngDirty) &&
              !validityFormula st)) := by
  have hval : (validationRulesValidator st st.data).2 = validityFormula st := by
    cases hb : (!st.cfg.validationIsRequired && (st.data == "")) with
    | true => simp [validationRulesValidator, validityFormula, hb]
    | false =>
        simp [validationRulesValidator, validityFormula, hb,
          checkPatternsValidity_snd]
  refine ⟨hval, fun hsync => ?_⟩
  cases hoc : st.cfg.onlyValidCharacters <;>
    simp [isFieldInvalid, hoc, hsync, hval, Bool.and_assoc]

theorem validity_flag_characterization_witness :
    c3State.ngValid = (validationRulesValidator c3State c3State.data).2 ∧
      isFieldInvalid c3State
        = (!c3State.cfg.onlyValidCharacters &&
            ((c3State.cfg.formObject.map FormObject.submitted).getD false
              || c3State.ngDirty) &&
            !validityFormula c3State) :=
  ⟨rfl, (validity_flag_characterization c3State).2 rfl⟩

/-! ### C4 — blur protocol under revert-on-blur -/

/-- C4: on a non-aborted blur (`preventInputBlur` unset) with revert-on-blur
active and no pending debounced view value, an invalid value is replaced by
`lastValidValue` and no update callback fires, a valid value triggers the
update callback, and in both cases the blur callback fires with the event, the
(possibly reverted) value and the field name. -/
theorem onBlur_revert_protocol (st : State) (evId : Nat)
    (hprev : st.preventInputBlur = false)
    (hrev : st.cfg.isDataRevert = true)
    (hmv : st.modelValue = st.data) :
    (st.ngValid = false →
      (onBlur st evId).data = st.lastValidValue ∧
        (onBlur st evId).events
          = st.events
              ++ [Event.blur evId st.lastValidValue st.cfg.inputName]) ∧
      (st.ngValid = true →
        (onBlur st evId).data = st.data ∧
          (onBlur st evId).events
            = st.events
                ++ [Event.updateData st.data st.cfg.updateDataField,
                    Event.blur evId st.data st.cfg.inputName]) := by
  have hbeq : (st.modelValue == st.data) = true := by simp [hmv]
  constructor <;> intro hv <;>
    simp [onBlur, hprev, commitViewValue, hbeq, hrev, setOrRevertInputValue,
      hv]

/-- A quiescent state in revert-on-blur mode holding an invalid value `"bad"`
with last valid snapshot `"ok"`. -/
def c4State : State :=
  { cfg := { isDataRevert := true, inputName := "n", updateDataField := "n" }
    data := "bad"
    validationRules := []
    lastValidValue := "ok"
    modelValue := "bad"
    ngValid := false
    ngDirty := true
    inputFocused := true
    inputIsTouched := false
    isValidationPopUpShown := false
    showPopUpOnTop := false
    preventInputBlur := false
    docClickAttached := false
    events := [] }

theorem onBlur_revert_protocol_witness :
    c4State.preventInputBlur = false ∧ c4State.cfg.isDataRevert = true ∧
      c4State.modelValue = c4State.data ∧ c4State.ngValid = false ∧
      ((onBlur c4State 7).data = c4State.lastValidValue ∧
        (onBlur c4State 7).events
          = c4State.events
              ++ [Event.blur 7 c4State.lastValidValue c4State.cfg.inputName]) :=
  ⟨rfl, rfl, rfl, rfl, (onBlur_revert_protocol c4State 7 rfl rfl rfl).1 rfl⟩

/-! ### C5 — change protocol -/

/-- C5: `onChange` re-validates (updating `$valid` and the rules' `isValid`
flags); in revert-on-blur mode it never invokes the update callback and, when
the value is valid, snapshots it as `lastValidValue`; otherwise it immediately
invokes the update callback with the new value and the update field. -/
theorem onChange_protocol (st : State) :
    (onChange st).ngValid = (validationRulesValidator st st.modelValue).2 ∧
      (onChange st).validationRules
          = (validationRulesValidator st st.modelValue).1 ∧
      (st.cfg.isDataRevert = true →
        (onChange st).events = st.events ∧
          ((validationRulesValidator st st.modelValue).2 = true →
            (onChange st).lastValidValue = st.data)) ∧
      (st.cfg.isDataRevert = false →
        (onChange st).events
          = st.events
              ++ [Event.updateData st.data st.cfg.updateDataField]) := by
  cases hrev : st.cfg.isDataRevert <;>
    cases hv : (validationRulesValidator st st.modelValue).2 <;>
      simp [onChange, ngValidate, hrev, hv]

/-- A quiescent state without revert-on-blur, value `"v"`. -/
def c5State : State :=
  { cfg := { inputName := "k", updateDataField := "k" }
    data := "v"
    validationRules := []
    lastValidValue := "v"
    modelValue := "v"
    ngValid := true
    ngDirty := true
    inputFocused := true
    inputIsTouched := false
    isValidationPopUpShown := false
    showPopUpOnTop := false
    preventInputBlur := false
    docClickAttached := false
    events := [] }

theorem onChange_protocol_witness :
    c5State.cfg.isDataRevert = false ∧
      (onChange c5State).events
        = c5State.events
            ++ [Event.updateData c5State.data c5State.cfg.updateDataField] :=
  ⟨rfl, (onChange_protocol c5State).2.2.2 rfl⟩

/-! ### C6 — remaining-character count

`getRemainingCharactersCount` uses JS number semantics:
`Number.parseInt` yields `NaN` for a missing or unparseable attribute, and
`NaN <= 0` is `false`, so the `null` short-circuit is *not* taken in that
case and `(NaN - currentLength).toString()` — the string `"NaN"` — is
returned.  A JS number that may be `NaN` is embedded as `Option Int` with
`none` for `NaN`. -/

/-- The numeric value of a character under a radix, as `parseInt` accepts it. -/
def charDigitVal (radix : Nat) (c : Char) : Option Nat :=
  let v :=
    if '0' ≤ c ∧ c ≤ '9' then some (c.toNat - '0'.toNat)
    else if 'a' ≤ c ∧ c ≤ 'z' then some (c.toNat - 'a'.toNat + 10)
    else if 'A' ≤ c ∧ c ≤ 'Z' then some (c.toNat - 'A'.toNat + 10)
    else none
  match v with
  | some d => if d < radix then some d else none
  | none => none

/-- Parse the longest prefix of digits; `none` when no digit was consumed. -/
def parseDigits (radix : Nat) (cs : List Char) (acc : Nat) (found : Bool) :
    Option Nat :=
  match cs with
  | [] => if found then some acc else none
  | c :: rest =>
    match charDigitVal radix c with
    | some d => parseDigits radix rest (acc * radix + d) true
    | none => if found then some acc else none

/-- `Number.parseInt(s)`: `NaN` (`none`) for a missing argument; otherwise
skip leading whitespace, take an optional sign and an optional `0x`/`0X` hex
prefix, and parse the longest digit prefix (`NaN` when there is none). -/
def jsParseInt (s : Option String) : Option Int :=
  match s with
  | none => none
  | some str =>
    let cs := str.toList.dropWhile Char.isWhitespace
    let signed : Int × List Char :=
      match cs with
      | '-' :: rest => (-1, rest)
      | '+' :: rest => (1, rest)
      | _ => (1, cs)
    let prefixed : Nat × List Char :=
      match signed.2 with
      | '0' :: 'x' :: rest => (16, rest)
      | '0' :: 'X' :: rest => (16, rest)
      | _ => (10, signed.2)
    match parseDigits prefixed.1 prefixed.2 0 false with
    | some n => some (signed.1 * n)
    | none => none

/-- JS `<=` on a possibly-`NaN` number: any comparison with `NaN` is false. -/
def jsLe (a : Option Int) (k : Int) : Bool :=
  match a with
  | none => false
  | some m => decide (m ≤ k)

/-- JS subtraction on a possibly-`NaN` number: `NaN - n` is `NaN`. -/
def jsSub (a : Option Int) (n : Nat) : Option Int :=
  match a with
  | none => none
  | some m => some (m - n)

/-- JS `Number.prototype.toString`: `NaN` prints as `"NaN"`. -/
def jsNumToString (a : Option Int) : String :=
  match a with
  | none => "NaN"
  | some n => toString n

/-- `getRemainingCharactersCount()`:
`maxLength <= 0 ? null : (maxLength - currentLength).toString()`. -/
def getRemainingCharactersCount (validationMaxLength : Option String)
    (data : String) : Option String :=
  let maxLength := jsParseInt validationMaxLength
  let currentLength := data.length
  if jsLe maxLength 0 then none
  else some (jsNumToString (jsSub maxLength currentLength))

/-- Counterexample to C6 as stated: with `validationMaxLength` missing the
claim demands `null`, but the function returns the string `"NaN"` (since
`NaN <= 0` is false). -/
theorem remaining_count_nan_counterexample :
    getRemainingCharactersCount none "abc" = some "NaN" ∧
      getRemainingCharactersCount none "abc" ≠ none :=
  ⟨rfl, by decide⟩

/-- C6 (amended): when the configured max length parses to a number `m`, the
count is `null` for `m ≤ 0` and the string for `m - length(value)` (not
clamped, possibly negative) for `m > 0`; when it does not parse (missing or
non-numeric) the count is the string `"NaN"`, not `null`. -/
theorem getRemainingCharactersCount_spec (maxLen : Option String)
    (data : String) :
    (∀ m : Int, jsParseInt maxLen = some m →
      (m ≤ 0 → getRemainingCharactersCount maxLen data = none) ∧
        (0 < m → getRemainingCharactersCount maxLen data
          = some (toString (m - (data.length : Int))))) ∧
      (jsParseInt maxLen = none →
        getRemainingCharactersCount maxLen data = some "NaN") := by
  refine ⟨fun m hm => ⟨fun hle => ?_, fun hlt => ?_⟩, fun hn => ?_⟩
  · simp [getRemainingCharactersCount, hm, jsLe, hle]
  · have hnle : ¬ (m ≤ 0) := not_le.mpr hlt
    simp [getRemainingCharactersCount, hm, jsLe, hnle, jsSub, jsNumToString]
  · simp [getRemainingCharactersCount, hn, jsLe, jsSub, jsNumToString]

/-- Witness for C6 (amended), on the spec's own example: `maxLength = "5"`,
value `"Hello!"` gives remaining count `"-1"`. -/
theorem getRemainingCharactersCount_spec_witness :
    jsParseInt (some "5") = some 5 ∧ (0 : Int) < 5 ∧
      getRemainingCharactersCount (some "5") "Hello!"
        = some (toString ((5 : Int) - (("Hello!".length : Nat) : Int))) :=
  ⟨by decide, by decide,
    ((getRemainingCharactersCount_spec (some "5") "Hello!").1 5
      (by decide)).2 (by decide)⟩

/-! ### C7 — document click listener discipline -/

/-- C7: when the listener-attached flag matches the pop-over-shown flag
(as holds initially), toggling preserves that match; toggling twice from the
closed state leaves the pop-over closed with no listener attached;
`handleDocumentClick` preserves the match for any click target; teardown
detaches the listener; and toggling with no configured rules is a no-op. -/
theorem popup_listener_discipline (st : State) (targetInsideElement : Bool)
    (hinv : st.docClickAttached = st.isValidationPopUpShown) :
    (toggleValidationPopUp st).docClickAttached
        = (toggleValidationPopUp st).isValidationPopUpShown ∧
      (st.isValidationPopUpShown = false →
        (toggleValidationPopUp (toggleValidationPopUp st)).docClickAttached
            = false ∧
          (toggleValidationPopUp
            (toggleValidationPopUp st)).isValidationPopUpShown = false) ∧
      (handleDocumentClick st targetInsideElement).docClickAttached
          = (handleDocumentClick st targetInsideElement).isValidationPopUpShown ∧
      (onDestroy st).docClickAttached = false ∧
      (st.validationRules = [] → toggleValidationPopUp st = st) := by
  refine ⟨?_, fun hs => ?_, ?_, rfl, fun hr => ?_⟩
  · cases hemp : st.validationRules.isEmpty <;>
      cases hsh : st.isValidationPopUpShown <;>
        simp_all [toggleValidationPopUp]
  · cases hemp : st.validationRules.isEmpty <;>
      simp_all [toggleValidationPopUp]
  · cases hb : targetInsideElement <;>
      cases hsh : st.isValidationPopUpShown <;>
        simp_all [handleDocumentClick]
  · simp [toggleValidationPopUp, hr]

/-- A closed-pop-over state with one configured rule and no listener. -/
def c7State : State :=
  initComponent { inputName := "f" } (some "x")
    (some [ { label := "any", pattern := .regex fun _ => true } ])

theorem popup_listener_discipline_witness :
    c7State.docClickAttached = c7State.isValidationPopUpShown ∧
      c7State.isValidationPopUpShown = false ∧
      ((toggleValidationPopUp (toggleValidationPopUp c7State)).docClickAttached
          = false ∧
        (toggleValidationPopUp
          (toggleValidationPopUp c7State)).isValidationPopUpShown = false) :=
  ⟨rfl, rfl, (popup_listener_discipline c7State true rfl).2.1 rfl⟩

/-! ### C8 — external value change overwrites local value and snapshot -/

/-- C8: the `inputValue` branch of `$onChanges` overwrites `ctrl.data` with
the new bound value and resets `lastValidValue` to that same value; a
`null`/`undefined` bound value is normalized to `''`. -/
theorem onChangesInputValue_spec (st : State) (v : String) :
    (onChangesInputValue st (some v)).data = v ∧
      (onChangesInputValue st (some v)).lastValidValue = v ∧
      (onChangesInputValue st none).data = "" ∧
      (onChangesInputValue st none).lastValidValue = "" :=
  ⟨rfl, rfl, rfl, rfl⟩

/-! ### C9 — enum fallbacks at initialization -/

/-- The values of the `FIELD_TYPES` constant object. -/
def FIELD_TYPES : List String := ["input", "password", "textarea", "schedule"]

/-- The values of the `BORDER_MODES` constant object. -/
def BORDER_MODES : List String := ["always", "hover", "focus"]

def defaultBorderMode : String := "always"

def BORDERS_CLASS_BASE : String := "borders-"

/-- The fields of the controller that the enum-checking part of `$onInit`
determines. -/
structure InitResult where
  selectedFieldType : String
  bordersMode : String
  bordersModeClass : String

/-- The `$onInit` handling of `fieldType` and `bordersMode`: `lodash.defaults`
fills a missing `fieldType` with the initial `ctrl.selectedFieldType`
(`'input'`) and a missing `bordersMode` with `'always'`; then an unrecognized
`fieldType` leaves `selectedFieldType` at its default and an unrecognized
`bordersMode` is overwritten with the default.  A total function: no
configuration raises an error. -/
def onInit (fieldType bordersMode : Option String) : InitResult :=
  let ft := fieldType.getD "input"
  let bm := bordersMode.getD defaultBorderMode
  let selected := if FIELD_TYPES.contains ft then ft else "input"
  let bm2 := if BORDER_MODES.contains bm then bm else defaultBorderMode
  { selectedFieldType := selected
    bordersMode := bm2
    bordersModeClass := BORDERS_CLASS_BASE ++ bm2 }

/-- C9: initialization with unrecognized `fieldType`/`bordersMode` values
(and with missing ones) completes — `onInit` is total — and falls back to the
documented defaults `'input'` and `'always'`. -/
theorem onInit_defaults (ft bm : String)
    (hft : FIELD_TYPES.contains ft = false)
    (hbm : BORDER_MODES.contains bm = false) :
    (onInit (some ft) (some bm)).selectedFieldType = "input" ∧
      (onInit (some ft) (some bm)).bordersMode = "always" ∧
      (onInit (some ft) (some bm)).bordersModeClass = "borders-always" ∧
      (onInit none none).selectedFieldType = "input" ∧
      (onInit none none).bordersMode = "always" := by
  have hft2 : ¬ ft ∈ FIELD_TYPES := by simpa using hft
  have hbm2 : ¬ bm ∈ BORDER_MODES := by simpa using hbm
  refine ⟨?_, ?_, ?_, rfl, rfl⟩ <;>
    simp [onInit, hft2, hbm2, defaultBorderMode, BORDERS_CLASS_BASE]

theorem onInit_defaults_witness :
    FIELD_TYPES.contains "banana" = false ∧
      BORDER_MODES.contains "banana" = false ∧
      (onInit (some "banana") (some "banana")).selectedFieldType = "input" ∧
      (onInit (some "banana") (some "banana")).bordersMode = "always" := by
  have h := onInit_defaults "banana" "banana" (by decide) (by decide)
  exact ⟨by decide, by decide, h.1, h.2.1⟩

/-! ### C10 — deep copy of the bound rule list (heap model)

The pure model above treats rule lists as values, which cannot express the
aliasing content of `angular.copy`.  Here rule objects live in a heap
(addresses are indices; allocation appends), the caller's bound list and the
component's list are lists of addresses, and `checkPatternsValidity`'s
`rule.isValid = ...` writes become heap updates, exactly as in the JS code
where the `forEach` mutates the rule objects in place. -/

instance : Inhabited Rule := ⟨{ pattern := default }⟩

/-- A heap of rule objects; an address is an index, allocation appends. -/
abbrev Heap : Type := List Rule

/-- `angular.copy(rules)` of a list of rule objects: allocate a fresh cell
per source object, holding a copy of its contents (rule objects hold only
scalars and functions, so the record copy is the deep copy), and return the
fresh addresses. -/
def angularCopyRules (h : Heap) (addrs : List Nat) : Heap × List Nat :=
  (h ++ addrs.map fun a => h[a]?.getD default,
    (List.range addrs.length).map fun i => i + h.length)

/-- The `changes.validationRules` branch of `$onChanges`:
`ctrl.validationRules = angular.copy(lodash.defaultTo(currentValue, []))`. -/
def onChangesValidationRulesHeap (h : Heap) (incoming : Option (List Nat)) :
    Heap × List Nat :=
  angularCopyRules h (incoming.getD [])

/-- `checkPatternsValidity`'s `forEach` in the heap model: write each
addressed rule's evaluation into its `isValid` property. -/
def checkPatternsValidityHeap (h : Heap) (addrs : List Nat)
    (value inputName : String) (fo : Option FormObject) : Heap :=
  addrs.foldl
    (fun hh a =>
      match hh[a]? with
      | none => hh
      | some r =>
          hh.set a { r with isValid := some (evalRule value inputName fo r) })
    h

/-- Frame property: the validation writes touch only the addressed cells. -/
theorem checkPatternsValidityHeap_frame (value inputName : String)
    (fo : Option FormObject) (addrs : List Nat) (hh : Heap) (a : Nat)
    (ha : a ∉ addrs) :
    (checkPatternsValidityHeap hh addrs value inputName fo)[a]?
      = hh[a]? := by
  induction addrs generalizing hh with
  | nil => rfl
  | cons b bs ih =>
      have hab : a ≠ b := fun hab => ha (hab ▸ List.mem_cons_self b bs)
      have hbs : a ∉ bs := fun hmem => ha (List.mem_cons_of_mem b hmem)
      show (checkPatternsValidityHeap
          (match hh[b]? with
           | none => hh
           | some r =>
               hh.set b
                 { r with isValid := some (evalRule value inputName fo r) })
          bs value inputName fo)[a]? = hh[a]?
      rw [ih _ hbs]
      cases hcell : hh[b]? with
      | none => rfl
      | some r => simp [List.getElem?_set_ne (Ne.symm hab)]

/-- C10: after the component deep-copies the bound rule list and then runs
any validation pass over its own copy, every caller-supplied rule object is
unchanged; a bound list of `null`/`undefined` is normalized to the empty
list (no copy allocated, no addresses retained). -/
theorem rules_copy_no_caller_mutation (h : Heap) (callerAddrs : List Nat)
    (value inputName : String) (fo : Option FormObject)
    (hvalid : ∀ a ∈ callerAddrs, a < h.length) :
    (∀ a ∈ callerAddrs,
      (checkPatternsValidityHeap
          (onChangesValidationRulesHeap h (some callerAddrs)).1
          (onChangesValidationRulesHeap h (some callerAddrs)).2
          value inputName fo)[a]?
        = h[a]?) ∧
      (onChangesValidationRulesHeap h none).2 = [] ∧
      (onChangesValidationRulesHeap h none).1 = h := by
  refine ⟨fun a ha => ?_, rfl, by simp [onChangesValidationRulesHeap,
    angularCopyRules]⟩
  have halt : a < h.length := hvalid a ha
  have hnotmem :
      a ∉ (List.range callerAddrs.length).map fun i => i + h.length := by
    intro hmem
    rcases List.mem_map.mp hmem with ⟨i, _, hi⟩
    omega
  simp only [onChangesValidationRulesHeap, angularCopyRules, Option.getD_some]
  rw [checkPatternsValidityHeap_frame _ _ _ _ _ _ hnotmem]
  exact List.getElem?_append_left halt

/-- A one-object heap whose rule would evaluate to `false` on any value. -/
def c10Heap : Heap :=
  [ { label := "never", pattern := .regex fun _ => false } ]

theorem rules_copy_no_caller_mutation_witness :
    (∀ a ∈ [0], a < c10Heap.length) ∧
      (checkPatternsValidityHeap
          (onChangesValidationRulesHeap c10Heap (some [0])).1
          (onChangesValidationRulesHeap c10Heap (some [0])).2
          "x" "f" none)[0]?
        = c10Heap[0]? :=
  ⟨by decide,
    (rules_copy_no_caller_mutation c10Heap [0] "x" "f" none
      (by decide)).1 0 (by decide)⟩

end ValidatingInputField
